import Mathlib

/-!
Verification development for the Aquae aquarium server.

This file gives a shallow embedding, in Lean, of the lifecycle and
reconciliation engine of the repository:

* `FishConfig` embeds `src/backend/config/fish.js` (species catalog,
  hunger rates, activity cycles, rarity-weighted spawn selection);
* `AquariumLogic` embeds the current snapshot of the aquarium routes
  (the `getAndUpdateAquariumState` / `saveAquariumState` /
  `updateFishStates` / `updateFishData` / `updateUnlockables` /
  `spawnFish` / `spawnStarterFish` methods);
* `SqliteDB` embeds the session-keyed leaderboard of
  `src/backend/db/sqlite.js`, and `SqliteDBFishKeyed` the fish-keyed
  leaderboard of the alternate SQLite layer.

Numbers that are JS floats are modelled as rationals (the arithmetic the
code performs on them is exact on the inputs considered); timestamps are
modelled as rational epoch-seconds, with `Option` capturing unparsable
values (`new Date(s)` yielding `NaN`); database writes are recorded in an
explicit operation log (`DbOp`) mirroring the calls the code makes on its
persistence gateway, and `Math.random()` is modelled as an explicit
stream of rationals in `[0, 1)`.
-/

set_option maxRecDepth 100000

namespace Aquae

/-- Rarity tiers of a species, as validated by `parseFishDefinition`. -/
inductive Rarity where
  | common
  | uncommon
  | rare
  | very_rare
deriving DecidableEq, Repr

/-- Activity cycle of a species, as validated by `parseFishDefinition`. -/
inductive Cycle where
  | diurnal
  | nocturnal
deriving DecidableEq, Repr

/-- A species definition as produced by `FishConfig.parseFishDefinition`. -/
structure FishType where
  name : String
  feedIntervalMin : ℚ
  hungerThreshold : ℚ
  rarity : Rarity
  cycle : Cycle
  width : ℕ
  height : ℕ
deriving DecidableEq, Repr

/-- A wall-clock instant: epoch seconds plus the local hour used by
`isFishActive` (JS `Date.getHours()`). -/
structure Instant where
  sec : ℚ
  hour : ℕ
deriving DecidableEq, Repr

/-- A fish row as stored in the `fish` table and held on the in-memory
aquarium object. `last_fed = none` models a stored timestamp that does
not parse (`new Date(...)` returning `NaN`). -/
structure Fish where
  id : ℕ
  aquarium_id : ℕ
  type : String
  hunger : ℚ
  x : ℚ
  y : ℚ
  last_fed : Option ℚ
  spawn_count : ℕ
  created_at : ℚ
deriving DecidableEq, Repr

/-- An aquarium row together with its fish, in the shape returned by
`SqliteDB.getAquarium`. -/
structure Aquarium where
  id : ℕ
  psid : String
  tank_life_sec : ℚ
  num_fish : ℕ
  total_feedings : ℕ
  food_level : ℚ
  castle_unlocked : Bool
  submarine_unlocked : Bool
  music_enabled : Bool
  fish : List Fish
deriving DecidableEq, Repr

namespace FishConfig

/-- The base rarity weight table (`this.rarityWeights`). -/
structure RarityWeights where
  common : ℚ
  uncommon : ℚ
  rare : ℚ
  very_rare : ℚ
deriving DecidableEq, Repr

/-- `{'common': 0.5, 'uncommon': 0.3, 'rare': 0.15, 'very_rare': 0.05}` -/
def rarityWeights : RarityWeights :=
  { common := 1/2, uncommon := 3/10, rare := 3/20, very_rare := 1/20 }

/-- The five default species loaded by `loadDefaultFishTypes`. -/
def defaultFishTypes : List FishType :=
  [ { name := "Clownfish", feedIntervalMin := 5, hungerThreshold := 60,
      rarity := .common, cycle := .diurnal, width := 30, height := 20 },
    { name := "Angelfish", feedIntervalMin := 4, hungerThreshold := 80,
      rarity := .uncommon, cycle := .diurnal, width := 28, height := 22 },
    { name := "Betta", feedIntervalMin := 3, hungerThreshold := 45,
      rarity := .rare, cycle := .nocturnal, width := 25, height := 18 },
    { name := "Goldfish", feedIntervalMin := 6, hungerThreshold := 100,
      rarity := .common, cycle := .diurnal, width := 32, height := 24 },
    { name := "Dragonfish", feedIntervalMin := 2, hungerThreshold := 120,
      rarity := .very_rare, cycle := .nocturnal, width := 40, height := 30 } ]

/-- `getFishType(name)`: lookup in the map keyed by lowercased name. -/
def getFishType (catalog : List FishType) (n : String) : Option FishType :=
  catalog.find? (fun t => t.name.toLower == n.toLower)

/-- `getAllFishTypes()`: all species, in catalog order. -/
def getAllFishTypes (catalog : List FishType) : List FishType := catalog

/-- `getFishByRarity(rarity)` -/
def getFishByRarity (catalog : List FishType) (r : Rarity) : List FishType :=
  (getAllFishTypes catalog).filter (fun t => t.rarity = r)

/-- `isFishActive(fishType, currentTime)`: diurnal fish are active for
hours `[6, 20)`, nocturnal fish outside that window. -/
def isFishActive (t : FishType) (hour : ℕ) : Bool :=
  match t.cycle with
  | .diurnal => 6 ≤ hour ∧ hour < 20
  | .nocturnal => 20 ≤ hour ∨ hour < 6

/-- `getHungerRate(fishType, isActive)`: base per-second rate
`hungerThreshold / (feedIntervalMin * 60)`, scaled by the activity
multiplier (1.0 active, 0.3 inactive), returned per minute. -/
def getHungerRate (t : FishType) (isActive : Bool) : ℚ :=
  (t.hungerThreshold / (t.feedIntervalMin * 60)) *
    (if isActive then 1 else 3/10) * 60

/-- Spawn conditions returned by `getSpawnConditions(fishType)`. -/
structure SpawnConditions where
  feedingsRequired : ℕ
  minTankLife : ℚ
  maxHunger : ℚ
deriving DecidableEq, Repr

/-- `getSpawnConditions(fishType)`: 5 feedings required. -/
def getSpawnConditions (t : FishType) : SpawnConditions :=
  { feedingsRequired := 5, minTankLife := t.feedIntervalMin, maxHunger := 50 }

/-- The rarity weights after the tank-maturity adjustment performed at
the start of `selectRandomFish` (before normalization): past 24 h the
code multiplies `rare` by 1.5 and `very_rare` by 2, and past 72 h it
multiplies `very_rare` by a further 1.5. -/
def adjustedWeights (tankLifeHours : ℚ) : RarityWeights :=
  let w0 := rarityWeights
  let w1 := if tankLifeHours > 24 then
      { w0 with rare := w0.rare * (3/2), very_rare := w0.very_rare * 2 }
    else w0
  if tankLifeHours > 72 then
    { w1 with very_rare := w1.very_rare * (3/2) }
  else w1

/-- Sum of the four weight entries. -/
def RarityWeights.total (w : RarityWeights) : ℚ :=
  w.common + w.uncommon + w.rare + w.very_rare

/-- The normalization step of `selectRandomFish`: every adjusted weight
is divided by their sum. -/
def normalizedWeights (tankLifeHours : ℚ) : RarityWeights :=
  let w := adjustedWeights tankLifeHours
  let total := w.total
  { common := w.common / total, uncommon := w.uncommon / total,
    rare := w.rare / total, very_rare := w.very_rare / total }

end FishConfig

/-- A deterministic stand-in for `Math.random()`: a stream of rationals
read off one at a time. -/
structure Rng where
  f : ℕ → ℚ
  i : ℕ

/-- Draw the next value from the stream. -/
def Rng.next (r : Rng) : ℚ × Rng := (r.f r.i, { r with i := r.i + 1 })

/-- The stream delivers values in `[0, 1)`, as `Math.random()` does. -/
def Rng.Valid (r : Rng) : Prop := ∀ n, 0 ≤ r.f n ∧ r.f n < 1

namespace FishConfig

/-- The rarity-selection loop of `selectRandomFish`: walk the weight
entries in insertion order (common, uncommon, rare, very_rare),
accumulate, and take the first rarity whose cumulative weight reaches
the drawn value, defaulting to `common`. -/
def selectRarity (w : RarityWeights) (random : ℚ) : Rarity :=
  if random ≤ w.common then .common
  else if random ≤ w.common + w.uncommon then .uncommon
  else if random ≤ w.common + w.uncommon + w.rare then .rare
  else if random ≤ w.common + w.uncommon + w.rare + w.very_rare then .very_rare
  else .common

/-- `Math.floor(random * array.length)` used to index an array; an
out-of-range index yields `undefined` in JS, hence `Option` via `[·]?`
at the call sites. -/
def jsIndex (random : ℚ) (n : ℕ) : ℕ := (⌊random * n⌋).toNat

/-- `selectRandomFish(tankLifeHours)`: two-stage weighted draw. Stage 1
picks a rarity from the normalized adjusted weights; stage 2 picks
uniformly among species of that rarity, falling back to a uniform draw
over the whole catalog when the rarity has no species. -/
def selectRandomFish (catalog : List FishType) (tankLifeHours : ℚ)
    (rng : Rng) : Option FishType × Rng :=
  let fishTypes := getAllFishTypes catalog
  if fishTypes.length = 0 then (none, rng)
  else
    let w := normalizedWeights tankLifeHours
    let (random, rng1) := rng.next
    let selectedRarity := selectRarity w random
    let fishOfRarity := getFishByRarity catalog selectedRarity
    if fishOfRarity.length = 0 then
      let (r2, rng2) := rng1.next
      (fishTypes[jsIndex r2 fishTypes.length]?, rng2)
    else
      let (r2, rng2) := rng1.next
      (fishOfRarity[jsIndex r2 fishOfRarity.length]?, rng2)

end FishConfig

namespace AquariumLogic

open FishConfig

/-- A partial-field update handed to `db.updateFish` (the JS `changes`
object): only the named fields change. -/
structure Changes where
  x : Option ℚ := none
  y : Option ℚ := none
  hunger : Option ℚ := none
  last_fed : Option ℚ := none
  spawn_count : Option ℕ := none
deriving DecidableEq, Repr

/-- `Object.keys(changes).length > 0`: some field of the changes object
is present (the check is order-independent). -/
def Changes.nonempty (c : Changes) : Bool :=
  c.hunger.isSome || c.x.isSome || c.y.isSome ||
    c.last_fed.isSome || c.spawn_count.isSome

/-- `Object.assign(fish, changes)` -/
def applyChanges (f : Fish) (c : Changes) : Fish :=
  { f with
    x := c.x.getD f.x
    y := c.y.getD f.y
    hunger := c.hunger.getD f.hunger
    last_fed := match c.last_fed with | some v => some v | none => f.last_fed
    spawn_count := c.spawn_count.getD f.spawn_count }

/-- A partial-field update handed to `db.updateAquarium`. -/
structure AqUpdate where
  tank_life_sec : Option ℚ := none
  num_fish : Option ℕ := none
  total_feedings : Option ℕ := none
  food_level : Option ℚ := none
  castle_unlocked : Option Bool := none
  submarine_unlocked : Option Bool := none
  music_enabled : Option Bool := none
deriving DecidableEq, Repr

/-- `Object.keys(updates).length > 0` -/
def AqUpdate.nonempty (u : AqUpdate) : Bool :=
  u.tank_life_sec.isSome || u.num_fish.isSome || u.total_feedings.isSome ||
    u.food_level.isSome || u.castle_unlocked.isSome ||
    u.submarine_unlocked.isSome || u.music_enabled.isSome

/-- The calls the logic layer makes on its persistence gateway, in
order. `removeAquarium` is part of the gateway vocabulary but is never
issued by any code path (aquarium rows are only ever updated). -/
inductive DbOp where
  | createAquarium (psid : String)
  | removeAquarium (psid : String)
  | updateAquarium (psid : String) (u : AqUpdate)
  | addFish (aquariumId : ℕ) (f : Fish)
  | updateFish (id : ℕ) (c : Changes)
  | removeFish (id : ℕ)
  | updateLeaderboard (f : Fish) (psid : String)
deriving DecidableEq, Repr

/-- Id supply and random stream threaded through the spawning paths. -/
structure Sim where
  rng : Rng
  nextId : ℕ

/-- Outcome of the `updateFishStates` loop body for one fish. -/
inductive FishOutcome where
  | unknownType
  | dead
  | kept (f : Fish) (writeOp : Option DbOp)
deriving DecidableEq, Repr

/-- The loop body of `updateFishStates` for a single fish: species
lookup, elapsed time since `last_fed` (an unparsable timestamp counts as
fed right now), hunger advance capped at the threshold, death at or
above the threshold, and a hunger write only when the change exceeds
0.1. -/
def advanceFish (catalog : List FishType) (now : Instant) (f : Fish) :
    FishOutcome :=
  match getFishType catalog f.type with
  | none => .unknownType
  | some t =>
    let lastFed : ℚ := match f.last_fed with | some s => s | none => now.sec
    let secondsSinceFed := now.sec - lastFed
    let isActive := isFishActive t now.hour
    let hungerRatePerMinute := getHungerRate t isActive
    let hungerRatePerSecond := hungerRatePerMinute / 60
    let newHunger :=
      min t.hungerThreshold (f.hunger + secondsSinceFed * hungerRatePerSecond)
    if t.hungerThreshold ≤ newHunger then .dead
    else if 1/10 < |newHunger - f.hunger| then
      .kept { f with hunger := newHunger }
        (some (.updateFish f.id { hunger := some newHunger }))
    else .kept f none

/-- Accumulated state of the `updateFishStates` loop: the `updatedFish`
list, the `fishDied` flag, and the database calls made. -/
structure CatchResult where
  kept : List Fish
  died : Bool
  ops : List DbOp
deriving Repr

/-- The `updateFishStates` loop over the fish list, in order. -/
def runCatchUp (catalog : List FishType) (now : Instant) :
    List Fish → CatchResult
  | [] => { kept := [], died := false, ops := [] }
  | f :: rest =>
    let r := runCatchUp catalog now rest
    match advanceFish catalog now f with
    | .unknownType => r
    | .dead => { kept := r.kept, died := true, ops := .removeFish f.id :: r.ops }
    | .kept f' writeOp =>
      { kept := f' :: r.kept, died := r.died,
        ops := match writeOp with | some o => o :: r.ops | none => r.ops }

/-- `updateFishStates(aquarium)`: advance every fish, drop unknown
species and dead fish, recompute `num_fish`, and reset
`tank_life_sec` / `num_fish` / `total_feedings` to zero when a death
emptied the tank. -/
def updateFishStates (catalog : List FishType) (now : Instant)
    (a : Aquarium) : Aquarium × List DbOp :=
  let r := runCatchUp catalog now a.fish
  let a1 := { a with fish := r.kept, num_fish := r.kept.length }
  if r.died && r.kept.isEmpty then
    ({ a1 with tank_life_sec := 0, total_feedings := 0 },
     r.ops ++ [.updateAquarium a.psid
       { tank_life_sec := some 0, num_fish := some 0, total_feedings := some 0 }])
  else if r.died then
    (a1, r.ops ++ [.updateAquarium a.psid { num_fish := some r.kept.length }])
  else (a1, r.ops)

/-- `spawnFish(aquarium, fishType)`: insert a fish row at a random
position with zero hunger, fed right now, push it onto the aquarium,
bump `num_fish`, and record the new fish on the leaderboard. -/
def spawnFish (a : Aquarium) (t : FishType) (now : Instant) (sim : Sim) :
    Aquarium × List DbOp × Sim :=
  let (r1, rng1) := sim.rng.next
  let (r2, rng2) := rng1.next
  let newFish : Fish :=
    { id := sim.nextId, aquarium_id := a.id, type := t.name, hunger := 0,
      x := 200 + r1 * 1520, y := 200 + r2 * 680,
      last_fed := some now.sec, spawn_count := 0, created_at := now.sec }
  ({ a with fish := a.fish ++ [newFish], num_fish := a.fish.length + 1 },
   [.addFish a.id newFish,
    .updateAquarium a.psid { num_fish := some (a.fish.length + 1) },
    .updateLeaderboard newFish a.psid],
   { rng := rng2, nextId := sim.nextId + 1 })

/-- The starter species chosen by `spawnStarterFish`: the first
common-rarity species, or the first catalog species if no common one
exists. -/
def starterFishType (catalog : List FishType) : Option FishType :=
  let availableFish := getAllFishTypes catalog
  let commonFish := availableFish.filter (fun t => t.rarity = .common)
  match commonFish with
  | t :: _ => some t
  | [] => availableFish.head?

/-- `spawnStarterFish(aquarium)`: spawn the starter species into an
empty tank; a no-op when the catalog is empty. -/
def spawnStarterFish (catalog : List FishType) (now : Instant)
    (a : Aquarium) (sim : Sim) : Aquarium × List DbOp × Sim :=
  match starterFishType catalog with
  | none => (a, [], sim)
  | some t => spawnFish a t now sim

/-- `getAndUpdateAquariumState(psid)` — the load-and-catch-up path:
create the aquarium if the PSID is unseen, otherwise run the catch-up
simulation, and spawn a starter fish whenever the tank ends up empty.
The database is modelled as the list of aquarium rows. -/
def getAndUpdateAquariumState (catalog : List FishType) (now : Instant)
    (db : List Aquarium) (psid : String) (sim : Sim) :
    Aquarium × List DbOp × Sim :=
  match db.find? (fun a => a.psid == psid) with
  | none =>
    let a : Aquarium :=
      { id := sim.nextId, psid := psid, tank_life_sec := 0, num_fish := 0,
        total_feedings := 0, food_level := 50, castle_unlocked := false,
        submarine_unlocked := false, music_enabled := true, fish := [] }
    let sim1 : Sim := { sim with nextId := sim.nextId + 1 }
    let (a2, ops2, sim2) := spawnStarterFish catalog now a sim1
    (a2, .createAquarium psid :: ops2, sim2)
  | some a0 =>
    let (a1, ops1) := updateFishStates catalog now a0
    if a1.fish.isEmpty then
      let (a2, ops2, sim2) := spawnStarterFish catalog now a1 sim
      (a2, ops1 ++ ops2, sim2)
    else (a1, ops1, sim)

/-- Mutate the first list element satisfying `p` (the JS loop finds one
object by id and mutates it in place). -/
def updateFirst {α : Type} (p : α → Bool) (g : α → α) : List α → List α
  | [] => []
  | x :: xs => if p x then g x :: xs else x :: updateFirst p g xs

/-- The JS expression `changes.hunger || fish.hunger`: an absent value
falls back to the stored one, and so does a reported value of exactly 0,
because 0 is falsy. -/
def jsOr (v : Option ℚ) (d : ℚ) : ℚ :=
  match v with
  | some x => if x = 0 then d else x
  | none => d

/-- One element of the `fish` array of a client push. -/
structure FishUpdate where
  id : ℕ
  x : Option ℚ := none
  y : Option ℚ := none
  hunger : Option ℚ := none
  fed : Bool := false
deriving DecidableEq, Repr

/-- The position-clamp step of the `updateFishData` loop body: when a
pushed update carries both coordinates, record them clamped to the
1920 x 1080 world rectangle. -/
def positionChanges (u : FishUpdate) (ch0 : Changes) : Changes :=
  match u.x, u.y with
  | some ux, some uy =>
    { ch0 with x := some (max 0 (min 1920 ux)),
               y := some (max 0 (min 1080 uy)) }
  | _, _ => ch0

/-- The client-trusted hunger step of the `updateFishData` loop body:
a hunger value in the push is recorded as-is during a save. -/
def clientHunger (u : FishUpdate) (ch1 : Changes) : Changes :=
  match u.hunger with
  | some h => { ch1 with hunger := some h }
  | none => ch1

/-- The body of the `updateFishData` loop for a single client fish
update: position clamps, client-trusted hunger, and — on `fed` with a
known species — the 20-point hunger subtraction clamped at 0, the
`last_fed` refresh, the feeding counter, and the possible spawn when the
counter reaches the required 5 feedings. -/
def processFishUpdate (catalog : List FishType) (now : Instant)
    (st : Aquarium × List DbOp × Sim) (u : FishUpdate) :
    Aquarium × List DbOp × Sim :=
  let (a, ops, sim) := st
  match a.fish.find? (fun g => g.id == u.id) with
  | none => st
  | some fish =>
    let ch0 : Changes := {}
    let ch1 : Changes := positionChanges u ch0
    let ch2 : Changes := clientHunger u ch1
    let fedStep : Aquarium × List DbOp × Sim × Changes :=
      if u.fed then
        match getFishType catalog fish.type with
        | some t =>
          let ch3 : Changes :=
            { ch2 with hunger := some (max 0 (jsOr ch2.hunger fish.hunger - 20)),
                       last_fed := some now.sec }
          let a1 := { a with total_feedings := a.total_feedings + 1 }
          let ops1 := ops ++ [.updateAquarium a.psid
            { total_feedings := some (a.total_feedings + 1) }]
          let newSpawnCount := fish.spawn_count + 1
          let spawnConditions := getSpawnConditions t
          if spawnConditions.feedingsRequired ≤ newSpawnCount then
            let ch4 : Changes := { ch3 with spawn_count := some 0 }
            let tankLifeHours := a1.tank_life_sec / 3600
            let (selected, rng1) := selectRandomFish catalog tankLifeHours sim.rng
            let sim1 : Sim := { sim with rng := rng1 }
            match selected with
            | some ft =>
              let (a2, ops2, sim2) := spawnFish a1 ft now sim1
              (a2, ops1 ++ ops2, sim2, ch4)
            | none => (a1, ops1, sim1, ch4)
          else
            (a1, ops1, sim, { ch3 with spawn_count := some newSpawnCount })
        | none => (a, ops, sim, ch2)
      else (a, ops, sim, ch2)
    let (a', ops', sim', ch) := fedStep
    if ch.nonempty then
      let newFishList := updateFirst (fun g => g.id == u.id) (fun g => applyChanges g ch) a'.fish
      ({ a' with fish := newFishList }, ops' ++ [.updateFish fish.id ch], sim')
    else (a', ops', sim')

/-- `updateFishData(aquarium, fishUpdates)`: fold the loop body over the
pushed fish updates in order. -/
def updateFishData (catalog : List FishType) (now : Instant) (a : Aquarium)
    (fishUpdates : List FishUpdate) (sim : Sim) :
    Aquarium × List DbOp × Sim :=
  fishUpdates.foldl (processFishUpdate catalog now) (a, [], sim)

/-- The `unlockables` object of a client push. -/
structure Unlockables where
  castle : Option Bool := none
  submarine : Option Bool := none
  music : Option Bool := none
deriving DecidableEq, Repr

/-- `updateUnlockables(aquarium, unlockables)`: the castle request is
honored only with at least 2 fish and otherwise forced off when it was
on; the submarine likewise with at least 4 fish; music is a free
toggle. -/
def updateUnlockables (a : Aquarium) (u : Unlockables) :
    Aquarium × List DbOp :=
  let upd0 : AqUpdate := {}
  let (a1, upd1) :=
    match u.castle with
    | some v =>
      if 2 ≤ a.num_fish then
        ({ a with castle_unlocked := v }, { upd0 with castle_unlocked := some v })
      else if a.castle_unlocked then
        ({ a with castle_unlocked := false },
         { upd0 with castle_unlocked := some false })
      else (a, upd0)
    | none => (a, upd0)
  let (a2, upd2) :=
    match u.submarine with
    | some v =>
      if 4 ≤ a1.num_fish then
        ({ a1 with submarine_unlocked := v },
         { upd1 with submarine_unlocked := some v })
      else if a1.submarine_unlocked then
        ({ a1 with submarine_unlocked := false },
         { upd1 with submarine_unlocked := some false })
      else (a1, upd1)
    | none => (a1, upd1)
  let (a3, upd3) :=
    match u.music with
    | some v =>
      ({ a2 with music_enabled := v }, { upd2 with music_enabled := some v })
    | none => (a2, upd2)
  if upd3.nonempty then (a3, [.updateAquarium a.psid upd3]) else (a3, [])

/-- The body of a client push (`POST /aquarium/state`). -/
structure SaveUpdates where
  tank_life_sec : Option ℚ := none
  food_level : Option ℚ := none
  fish : Option (List FishUpdate) := none
  unlockables : Option Unlockables := none

/-- `saveAquariumState(psid, updates)` — the save-from-client path: load
the raw row with no time catch-up, fail hard when the PSID has no
aquarium, otherwise overwrite tank life and food level from the client,
apply the fish updates and unlockables, and record every living fish on
the leaderboard. -/
def saveAquariumState (catalog : List FishType) (now : Instant)
    (db : List Aquarium) (psid : String) (u : SaveUpdates) (sim : Sim) :
    Except String Aquarium × List DbOp × Sim :=
  match db.find? (fun a => a.psid == psid) with
  | none => (Except.error "Aquarium not found for saving state.", [], sim)
  | some a0 =>
    let upd0 : AqUpdate := {}
    let (a1, upd1) :=
      match u.tank_life_sec with
      | some v => ({ a0 with tank_life_sec := v }, { upd0 with tank_life_sec := some v })
      | none => (a0, upd0)
    let (a2, upd2) :=
      match u.food_level with
      | some v => ({ a1 with food_level := v }, { upd1 with food_level := some v })
      | none => (a1, upd1)
    let ops0 : List DbOp := if upd2.nonempty then [.updateAquarium psid upd2] else []
    let (a3, ops3, sim3) :=
      match u.fish with
      | some us => updateFishData catalog now a2 us sim
      | none => (a2, [], sim)
    let (a4, ops4) :=
      match u.unlockables with
      | some ul => updateUnlockables a3 ul
      | none => (a3, [])
    let lbOps := a4.fish.map (fun f => DbOp.updateLeaderboard f psid)
    (Except.ok a4, ops0 ++ ops3 ++ ops4 ++ lbOps, sim3)

end AquariumLogic

namespace SqliteDB

/-- A row of the session-keyed `leaderboard` table of
`src/backend/db/sqlite.js` (`psid` is the primary key). -/
structure LeaderboardRow where
  psid : String
  tank_life_sec : ℤ
  num_fish : ℤ
  total_feedings : ℤ
deriving DecidableEq, Repr

/-- Insert into a list kept in decreasing `tank_life_sec` order. -/
def insertDesc (e : LeaderboardRow) : List LeaderboardRow → List LeaderboardRow
  | [] => [e]
  | x :: xs =>
    if x.tank_life_sec < e.tank_life_sec then e :: x :: xs
    else x :: insertDesc e xs

/-- `ORDER BY tank_life_sec DESC` -/
def sortByTankLifeDesc (l : List LeaderboardRow) : List LeaderboardRow :=
  l.foldr insertDesc []

/-- `getLeaderboard()`: the 10 rows with the largest `tank_life_sec`,
in decreasing order. -/
def getLeaderboard (table : List LeaderboardRow) : List LeaderboardRow :=
  (sortByTankLifeDesc table).take 10

/-- The `INSERT ... ON CONFLICT(psid) DO UPDATE` statement of
`updateLeaderboard`. -/
def upsert (table : List LeaderboardRow) (e : LeaderboardRow) :
    List LeaderboardRow :=
  if table.any (fun r => r.psid == e.psid) then
    AquariumLogic.updateFirst (fun r => r.psid == e.psid) (fun _ => e) table
  else table ++ [e]

/-- `updateLeaderboard(psid, tank_life_sec, num_fish, total_feedings)`:
upsert the candidate row, then delete every row whose `psid` is outside
the top 10 by `tank_life_sec` descending. -/
def updateLeaderboard (table : List LeaderboardRow) (e : LeaderboardRow) :
    List LeaderboardRow :=
  let t1 := upsert table e
  let keep := ((sortByTankLifeDesc t1).take 10).map (fun r => r.psid)
  t1.filter (fun r => keep.contains r.psid)

end SqliteDB

namespace SqliteDBFishKeyed

/-- A row of the fish-keyed `leaderboard` table of the alternate SQLite
layer (`fish_id` is the primary key, `created_at` the ranking key). -/
structure LeaderboardRow where
  fish_id : ℕ
  aquarium_id : ℕ
  psid : String
  fish_type : String
  created_at : ℚ
deriving DecidableEq, Repr

/-- Insert into a list kept in increasing `created_at` order. -/
def insertAsc (e : LeaderboardRow) : List LeaderboardRow → List LeaderboardRow
  | [] => [e]
  | x :: xs =>
    if e.created_at < x.created_at then e :: x :: xs
    else x :: insertAsc e xs

/-- `ORDER BY created_at ASC` -/
def sortByCreatedAsc (l : List LeaderboardRow) : List LeaderboardRow :=
  l.foldr insertAsc []

/-- `getLeaderboard()`: the 10 rows with the smallest `created_at`, in
increasing order. -/
def getLeaderboard (table : List LeaderboardRow) : List LeaderboardRow :=
  (sortByCreatedAsc table).take 10

/-- The guard at the top of `updateLeaderboard`: missing or falsy fish
fields make the call a warning-only no-op (0 and the empty string are
falsy). -/
def invalidFishData (f : Fish) : Bool :=
  f.id == 0 || f.aquarium_id == 0 || f.type == "" || f.created_at == 0

/-- `updateLeaderboard(fish, psid)`: reject invalid fish data, insert
the fish once (`ON CONFLICT(fish_id) DO NOTHING`), then delete every row
whose `fish_id` is outside the top 10 by `created_at` ascending. -/
def updateLeaderboard (table : List LeaderboardRow) (f : Fish)
    (psid : String) : List LeaderboardRow :=
  if invalidFishData f then table
  else
    let t1 :=
      if table.any (fun r => r.fish_id == f.id) then table
      else table ++ [{ fish_id := f.id, aquarium_id := f.aquarium_id,
                       psid := psid, fish_type := f.type,
                       created_at := f.created_at }]
    let keep := ((sortByCreatedAsc t1).take 10).map (fun r => r.fish_id)
    t1.filter (fun r => keep.contains r.fish_id)

end SqliteDBFishKeyed

namespace FishConfig


/-- Modelled from the claim wording of C3 (and spec section 4.1): both
`rare` and `very_rare` multiplied by 1.5 past 24 h, with an additional
1.5 factor on `very_rare` past 72 h. Stated only for comparison with
`adjustedWeights`, which embeds the code. -/
def claimAdjustedWeights (tankLifeHours : ℚ) : RarityWeights :=
  let w0 := rarityWeights
  let w1 := if tankLifeHours > 24 then
      { w0 with rare := w0.rare * (3/2), very_rare := w0.very_rare * (3/2) }
    else w0
  if tankLifeHours > 72 then
    { w1 with very_rare := w1.very_rare * (3/2) }
  else w1

/-- Normalization of the claim-modelled weights, for comparison. -/
def claimNormalizedWeights (tankLifeHours : ℚ) : RarityWeights :=
  let w := claimAdjustedWeights tankLifeHours
  let total := w.total
  { common := w.common / total, uncommon := w.uncommon / total,
    rare := w.rare / total, very_rare := w.very_rare / total }


end FishConfig

namespace Examples

open FishConfig AquariumLogic

/-- Noon: every diurnal species is active. -/
def exNow : Instant := { sec := 1000, hour := 12 }

/-- A Clownfish (threshold 60, feed interval 5 min, so 0.2 hunger per
second while active) last fed 100 seconds ago with hunger 30. -/
def exFish : Fish :=
  { id := 1, aquarium_id := 7, type := "Clownfish", hunger := 30,
    x := 400, y := 300, last_fed := some 900, spawn_count := 0,
    created_at := 100 }

/-- An aquarium holding just `exFish`. -/
def exAquarium : Aquarium :=
  { id := 7, psid := "abc", tank_life_sec := 5000, num_fish := 1,
    total_feedings := 3, food_level := 50, castle_unlocked := false,
    submarine_unlocked := false, music_enabled := true, fish := [exFish] }

/-- A fixed random stream (every draw is one half). -/
def exRng : Rng := { f := fun _ => 1/2, i := 0 }

/-- Id supply starting above the ids in use. -/
def exSim : Sim := { rng := exRng, nextId := 2 }


/-- A Clownfish at hunger 50 that was last fed 100 seconds before
`exNow`, so catch-up advances it to the 60 threshold and it dies. -/
def exDoomedFish : Fish :=
  { id := 11, aquarium_id := 8, type := "Clownfish", hunger := 50,
    x := 400, y := 300, last_fed := some 900, spawn_count := 0,
    created_at := 10 }

/-- A Clownfish fed exactly at `exNow`, so catch-up leaves it alone. -/
def exFreshFish : Fish :=
  { id := 12, aquarium_id := 8, type := "Clownfish", hunger := 0,
    x := 500, y := 300, last_fed := some 1000, spawn_count := 0,
    created_at := 20 }

/-- An aquarium with two live fish and the castle unlocked — a state the
gating rule permits, one starvation away from violating it. -/
def exCastleAquarium : Aquarium :=
  { id := 8, psid := "cst", tank_life_sec := 100, num_fish := 2,
    total_feedings := 0, food_level := 50, castle_unlocked := true,
    submarine_unlocked := false, music_enabled := true,
    fish := [exDoomedFish, exFreshFish] }

/-- A Clownfish at hunger 0 last fed half a second before `exNow`: the
computed hunger advance is exactly 0.1, at the write-skip epsilon. -/
def exStaleFish : Fish :=
  { id := 21, aquarium_id := 7, type := "Clownfish", hunger := 0,
    x := 400, y := 300, last_fed := some (1999/2), spawn_count := 0,
    created_at := 0 }



/-- The spec scenario for C2: a Clownfish (threshold 60, feed interval
5 min) at hunger 59, advanced 10 seconds at 0.2 hunger per second. -/
def exDyingFish : Fish :=
  { id := 3, aquarium_id := 7, type := "Clownfish", hunger := 59,
    x := 400, y := 300, last_fed := some 990, spawn_count := 0,
    created_at := 0 }

/-- A two-fish aquarium in which only `exDyingFish` dies. -/
def exC2Aquarium : Aquarium :=
  { id := 7, psid := "c2", tank_life_sec := 100, num_fish := 2,
    total_feedings := 0, food_level := 50, castle_unlocked := false,
    submarine_unlocked := false, music_enabled := true,
    fish := [exDyingFish, exFreshFish] }

/-- The Clownfish species record, as loaded by `loadDefaultFishTypes`. -/
def clownfishType : FishType :=
  { name := "Clownfish", feedIntervalMin := 5, hungerThreshold := 60,
    rarity := .common, cycle := .diurnal, width := 30, height := 20 }

/-- A Betta whose stored `last_fed` does not parse. -/
def exLostClockFish : Fish :=
  { id := 31, aquarium_id := 7, type := "Betta", hunger := 5,
    x := 100, y := 100, last_fed := none, spawn_count := 0,
    created_at := 0 }

/-- An aquarium holding just `exLostClockFish`. -/
def exC9Aquarium : Aquarium :=
  { id := 7, psid := "c9", tank_life_sec := 40, num_fish := 1,
    total_feedings := 0, food_level := 50, castle_unlocked := false,
    submarine_unlocked := false, music_enabled := true,
    fish := [exLostClockFish] }

/-- The Betta species record, as loaded by `loadDefaultFishTypes`. -/
def bettaType : FishType :=
  { name := "Betta", feedIntervalMin := 3, hungerThreshold := 45,
    rarity := .rare, cycle := .nocturnal, width := 25, height := 18 }



/-- A Clownfish with spawn-progress 4: the next feeding reaches the
required 5 feedings. -/
def exBreederFish : Fish :=
  { id := 41, aquarium_id := 7, type := "Clownfish", hunger := 30,
    x := 300, y := 300, last_fed := some 1000, spawn_count := 4,
    created_at := 0 }

/-- An aquarium holding just `exBreederFish`. -/
def exC6Aquarium : Aquarium :=
  { id := 7, psid := "c6", tank_life_sec := 7200, num_fish := 1,
    total_feedings := 4, food_level := 50, castle_unlocked := false,
    submarine_unlocked := false, music_enabled := true,
    fish := [exBreederFish] }



/-- An aquarium whose only fish starves at `exNow`. -/
def exC4Aquarium : Aquarium :=
  { id := 9, psid := "c4", tank_life_sec := 700, num_fish := 1,
    total_feedings := 4, food_level := 50, castle_unlocked := false,
    submarine_unlocked := false, music_enabled := true,
    fish := [exDoomedFish] }



/-- The k-th distinct session entry of the 15-write scenario: psid is a
string of k letters, ranking value k. -/
def sessionEntry (k : ℕ) : SqliteDB.LeaderboardRow :=
  { psid := String.mk (List.replicate k 'p'), tank_life_sec := (k:ℤ),
    num_fish := 1, total_feedings := (k:ℤ) }

/-- 15 sequential session-keyed writes with distinct keys and increasing
ranking values, starting from an empty table. -/
def sessionRun : List SqliteDB.LeaderboardRow :=
  (List.range 15).foldl
    (fun t k => SqliteDB.updateLeaderboard t (sessionEntry (k+1))) []

/-- The k-th distinct fish of the fish-keyed 15-write scenario. -/
def fishRowEx (k : ℕ) : Fish :=
  { id := k, aquarium_id := 1, type := "Clownfish", hunger := 0, x := 0,
    y := 0, last_fed := some 0, spawn_count := 0, created_at := (k:ℚ) }

/-- 15 sequential fish-keyed writes with distinct keys and increasing
creation times, starting from an empty table. -/
def fishRun : List SqliteDBFishKeyed.LeaderboardRow :=
  (List.range 15).foldl
    (fun t k => SqliteDBFishKeyed.updateLeaderboard t (fishRowEx (k+1)) "q") []


end Examples

open FishConfig AquariumLogic Examples

/-- Claim C1: load-and-catch-up is NOT idempotent, refuting the claimed
property at a concrete input. The catch-up path persists the advanced
hunger but never advances `last_fed`, so a second call at the same
wall-clock instant charges the same elapsed window again. Here the first
call advances the only fish from hunger 30 to 50 (100 s at 0.2/s) and
leaves `last_fed` untouched; the second call, with zero elapsed time in
between, advances it again to the 60 threshold, kills it, and spawns a
starter fish — so the second call kills one fish, spawns one fish, and
reports different hunger values, while the claim says it must do none of
those. -/
theorem catchUp_double_charges_elapsed :
    (getAndUpdateAquariumState defaultFishTypes exNow [exAquarium] "abc"
        exSim).2.1 =
      [DbOp.updateFish 1 { hunger := some 50 }] ∧
    (getAndUpdateAquariumState defaultFishTypes exNow [exAquarium] "abc"
        exSim).1.fish.map (fun f => (f.id, f.hunger, f.last_fed)) =
      [(1, 50, some 900)] ∧
    DbOp.removeFish 1 ∈
      (getAndUpdateAquariumState defaultFishTypes exNow
        [(getAndUpdateAquariumState defaultFishTypes exNow [exAquarium]
            "abc" exSim).1] "abc" exSim).2.1 ∧
    (getAndUpdateAquariumState defaultFishTypes exNow
        [(getAndUpdateAquariumState defaultFishTypes exNow [exAquarium]
            "abc" exSim).1] "abc" exSim).1.fish.map (fun f => f.id) =
      [2] ∧
    (getAndUpdateAquariumState defaultFishTypes exNow
        [(getAndUpdateAquariumState defaultFishTypes exNow [exAquarium]
            "abc" exSim).1] "abc" exSim).1 ≠
      (getAndUpdateAquariumState defaultFishTypes exNow [exAquarium] "abc"
        exSim).1 := by
  refine ⟨by with_unfolding_all decide, by with_unfolding_all decide,
    by with_unfolding_all decide, by with_unfolding_all decide,
    by with_unfolding_all decide⟩

/-- Claim C3, counterexample: at 25 tank-life hours the code multiplies
the `very_rare` weight by 2 (giving 0.1, normalized 4/45), while the
claim says both `rare` and `very_rare` are multiplied by 1.5 (which
would give 0.075, normalized 3/44). -/
theorem adjustedWeights_very_rare_doubled :
    (adjustedWeights 25).very_rare = 1/10 ∧
    (claimAdjustedWeights 25).very_rare = 3/40 ∧
    (normalizedWeights 25).very_rare = 4/45 ∧
    (claimNormalizedWeights 25).very_rare = 3/44 ∧
    (normalizedWeights 25).very_rare ≠ (claimNormalizedWeights 25).very_rare := by
  refine ⟨by with_unfolding_all decide, by with_unfolding_all decide,
    by with_unfolding_all decide, by with_unfolding_all decide,
    by with_unfolding_all decide⟩

/-- Claim C3, amended: for every `tankLifeHours` the bucket weights are
the base weights with `rare` multiplied by 1.5 and `very_rare` by 2 when
the tank is older than 24 h, and `very_rare` by a further 1.5 when older
than 72 h; the normalized weights used for the draw sum to 1. -/
theorem adjustedWeights_formula (tankLifeHours : ℚ) :
    adjustedWeights tankLifeHours =
      { common := 1/2, uncommon := 3/10,
        rare := if 24 < tankLifeHours then 9/40 else 3/20,
        very_rare :=
          if 72 < tankLifeHours then 3/20
          else if 24 < tankLifeHours then 1/10 else 1/20 } ∧
    (normalizedWeights tankLifeHours).total = 1 := by
  by_cases h24 : (24 : ℚ) < tankLifeHours <;>
    by_cases h72 : (72 : ℚ) < tankLifeHours
  · constructor
    · simp [adjustedWeights, rarityWeights, h24, h72]
      norm_num
    · simp [normalizedWeights, RarityWeights.total, adjustedWeights,
        rarityWeights, h24, h72]
      norm_num
  · constructor
    · simp [adjustedWeights, rarityWeights, h24, h72]
      norm_num
    · simp [normalizedWeights, RarityWeights.total, adjustedWeights,
        rarityWeights, h24, h72]
      norm_num
  · exact absurd (lt_trans (by norm_num) h72) h24
  · constructor
    · simp [adjustedWeights, rarityWeights, h24, h72]
    · simp [normalizedWeights, RarityWeights.total, adjustedWeights,
        rarityWeights, h24, h72]
      norm_num

/-- Claim C8, counterexample: the fish-count gating of the unlock flags
is not an invariant of every reachable state. Starting from a state the
gating rule permits (2 live fish, castle unlocked), one catch-up call in
which one fish starves leaves a state with 1 live fish and
`castle_unlocked` still true, because `updateFishStates` never touches
the unlock flags — they are forced off only on a push that names them. -/
theorem unlock_gating_not_state_invariant :
    2 ≤ exCastleAquarium.num_fish ∧
    exCastleAquarium.castle_unlocked = true ∧
    (updateFishStates defaultFishTypes exNow exCastleAquarium).1.num_fish = 1 ∧
    (updateFishStates defaultFishTypes exNow
      exCastleAquarium).1.castle_unlocked = true := by
  exact ⟨by norm_num [exCastleAquarium], by with_unfolding_all decide,
    by with_unfolding_all decide, by with_unfolding_all decide⟩

/-- The castle flag after `updateUnlockables`: the requested value with
at least 2 fish, otherwise off; untouched when the push does not name
it. -/
theorem updateUnlockables_castle (a : Aquarium) (u : Unlockables) :
    (updateUnlockables a u).1.castle_unlocked =
      (match u.castle with
       | some v => if 2 ≤ a.num_fish then v else false
       | none => a.castle_unlocked) := by
  rcases u with ⟨c, s, m⟩
  unfold updateUnlockables
  rcases c with _ | cv <;> rcases s with _ | sv <;> rcases m with _ | mv <;>
    dsimp only <;> split_ifs <;> simp_all

/-- The submarine flag after `updateUnlockables`: the requested value
with at least 4 fish, otherwise off; untouched when the push does not
name it. -/
theorem updateUnlockables_submarine (a : Aquarium) (u : Unlockables) :
    (updateUnlockables a u).1.submarine_unlocked =
      (match u.submarine with
       | some v => if 4 ≤ a.num_fish then v else false
       | none => a.submarine_unlocked) := by
  rcases u with ⟨c, s, m⟩
  unfold updateUnlockables
  rcases c with _ | cv <;> rcases s with _ | sv <;> rcases m with _ | mv <;>
    dsimp only <;> split_ifs <;> simp_all

/-- Claim C8, amended: the gating holds at push time. Whenever a push
names the castle flag and fewer than 2 fish are live, the resulting
castle flag is false even if the push requested true; with 2 or more
fish the requested value is honored. Likewise for the submarine flag
with threshold 4. (Between pushes a death during load-and-catch-up can
leave a flag on below its threshold.) -/
theorem unlockables_gated_on_push (a : Aquarium) (u : Unlockables) :
    (u.castle.isSome → a.num_fish < 2 →
      (updateUnlockables a u).1.castle_unlocked = false) ∧
    (∀ b, u.castle = some b → 2 ≤ a.num_fish →
      (updateUnlockables a u).1.castle_unlocked = b) ∧
    (u.submarine.isSome → a.num_fish < 4 →
      (updateUnlockables a u).1.submarine_unlocked = false) ∧
    (∀ b, u.submarine = some b → 4 ≤ a.num_fish →
      (updateUnlockables a u).1.submarine_unlocked = b) := by
  refine ⟨?_, ?_, ?_, ?_⟩
  · intro hc hn
    rw [updateUnlockables_castle]
    rcases hv : u.castle with _ | v
    · rw [hv] at hc; exact absurd hc (by simp)
    · simp [if_neg (by omega : ¬ 2 ≤ a.num_fish)]
  · intro b hb hn
    rw [updateUnlockables_castle, hb]
    simp [if_pos hn]
  · intro hc hn
    rw [updateUnlockables_submarine]
    rcases hv : u.submarine with _ | v
    · rw [hv] at hc; exact absurd hc (by simp)
    · simp [if_neg (by omega : ¬ 4 ≤ a.num_fish)]
  · intro b hb hn
    rw [updateUnlockables_submarine, hb]
    simp [if_pos hn]

/-- Claim C8, witness for the amended statement: a push requesting
`castle: true` on a 1-fish aquarium yields `castle_unlocked = false`,
and the same push on a 2-fish aquarium yields `castle_unlocked =
true`. -/
theorem unlockables_gated_on_push_witness :
    (updateUnlockables { exCastleAquarium with num_fish := 1 }
      { castle := some true }).1.castle_unlocked = false ∧
    (updateUnlockables exCastleAquarium
      { castle := some true }).1.castle_unlocked = true := by
  constructor
  · exact (unlockables_gated_on_push { exCastleAquarium with num_fish := 1 }
      { castle := some true }).1 (by decide) (by decide)
  · exact (unlockables_gated_on_push exCastleAquarium
      { castle := some true }).2.1 true rfl (by decide)

/-- Claim C2, counterexample to the survivor clause: for a fish whose
computed hunger change is positive but at most 0.1, the code skips the
write and the fish survives with its stale stored hunger, not with
`newHunger`. Here hunger 0, elapsed 0.5 s at 0.2/s gives `newHunger`
0.1, yet the fish keeps hunger 0 and no update is issued. -/
theorem catchUp_keeps_stale_hunger :
    advanceFish defaultFishTypes exNow exStaleFish =
      FishOutcome.kept exStaleFish none ∧
    ((getFishType defaultFishTypes exStaleFish.type).map (fun t =>
      min t.hungerThreshold (exStaleFish.hunger +
        (exNow.sec - exStaleFish.last_fed.getD exNow.sec) *
          (getHungerRate t (isFishActive t exNow.hour) / 60)))) =
      some (1/10) ∧
    exStaleFish.hunger ≠ 1/10 := by
  exact ⟨by with_unfolding_all decide, by with_unfolding_all decide,
    by with_unfolding_all decide⟩

/-- A fish whose species resolves in the catalog is never dropped as
unknown. -/
theorem advanceFish_ne_unknown {catalog : List FishType} {now : Instant}
    {f : Fish} (h : (getFishType catalog f.type).isSome) :
    advanceFish catalog now f ≠ FishOutcome.unknownType := by
  rcases ht : getFishType catalog f.type with _ | t
  · rw [ht] at h; exact absurd h (by simp)
  · simp only [advanceFish, ht]
    split
    · simp
    · split <;> simp

/-- The fish list returned by `updateFishStates` is the `updatedFish`
accumulator of its loop, in every branch. -/
theorem updateFishStates_fish (catalog : List FishType) (now : Instant)
    (a : Aquarium) :
    (updateFishStates catalog now a).1.fish =
      (runCatchUp catalog now a.fish).kept := by
  unfold updateFishStates
  dsimp only
  split_ifs <;> rfl

/-- The `num_fish` returned by `updateFishStates` is the length of the
`updatedFish` accumulator, in every branch. -/
theorem updateFishStates_num_fish (catalog : List FishType) (now : Instant)
    (a : Aquarium) :
    (updateFishStates catalog now a).1.num_fish =
      (runCatchUp catalog now a.fish).kept.length := by
  unfold updateFishStates
  dsimp only
  split_ifs <;> rfl

/-- The catch-up loop keeps exactly the fish that do not die, when every
species resolves. -/
theorem runCatchUp_kept_count (catalog : List FishType) (now : Instant) :
    ∀ l : List Fish, (∀ g ∈ l, (getFishType catalog g.type).isSome) →
      (runCatchUp catalog now l).kept.length =
        (l.filter
          (fun g => advanceFish catalog now g != FishOutcome.dead)).length := by
  intro l
  induction l with
  | nil => intro _; rfl
  | cons f rest ih =>
    intro h
    have hne : advanceFish catalog now f ≠ FishOutcome.unknownType :=
      advanceFish_ne_unknown (h f (by simp))
    have ih2 := ih (fun g hg => h g (by simp [hg]))
    unfold runCatchUp
    rcases hadv : advanceFish catalog now f with _ | _ | ⟨f1, op1⟩
    · exact absurd hadv hne
    · simpa [List.filter, hadv] using ih2
    · simp only [List.filter, hadv]
      rw [show (FishOutcome.kept f1 op1 != FishOutcome.dead) = true from rfl]
      simpa using ih2

/-- A fish that dies in the catch-up loop has its row removed from the
database. -/
theorem runCatchUp_removeFish_mem (catalog : List FishType) (now : Instant)
    (f : Fish) (hdead : advanceFish catalog now f = FishOutcome.dead) :
    ∀ l : List Fish, f ∈ l →
      DbOp.removeFish f.id ∈ (runCatchUp catalog now l).ops := by
  intro l
  induction l with
  | nil => intro hmem; cases hmem
  | cons g rest ih =>
    intro hmem
    unfold runCatchUp
    rcases List.mem_cons.mp hmem with rfl | hrest
    · rw [hdead]; simp
    · have ih2 := ih hrest
      rcases hadv : advanceFish catalog now g with _ | _ | ⟨g1, op1⟩
      · exact ih2
      · simpa using Or.inr ih2
      · rcases op1 with _ | o
        · exact ih2
        · simpa using Or.inr ih2

/-- A fish kept unchanged by the loop body survives into the
`updatedFish` list. -/
theorem runCatchUp_kept_mem (catalog : List FishType) (now : Instant)
    (f f' : Fish) (op : Option DbOp)
    (hkept : advanceFish catalog now f = FishOutcome.kept f' op) :
    ∀ l : List Fish, f ∈ l → f' ∈ (runCatchUp catalog now l).kept := by
  intro l
  induction l with
  | nil => intro hmem; cases hmem
  | cons g rest ih =>
    intro hmem
    unfold runCatchUp
    rcases List.mem_cons.mp hmem with rfl | hrest
    · rw [hkept]; simp
    · have ih2 := ih hrest
      rcases hadv : advanceFish catalog now g with _ | _ | ⟨g1, wop1⟩
      · exact ih2
      · exact ih2
      · simpa using Or.inr ih2

/-- Claim C2, amended: for a fish with a known species, catch-up
computes `newHunger = min(threshold, hunger + elapsedSeconds *
hungerRatePerSecond)`; at or above the threshold the fish is removed
(its row deleted, never written at or above threshold), and `num_fish`
becomes the number of surviving fish (one less per death); below the
threshold the fish survives, with hunger `newHunger` when the change
exceeds 0.1 and with its stored hunger unchanged otherwise. -/
theorem catchUp_advance_dichotomy (catalog : List FishType) (now : Instant)
    (f : Fish) (t : FishType) (nh : ℚ)
    (ht : getFishType catalog f.type = some t)
    (hnh : nh = min t.hungerThreshold
      (f.hunger + (now.sec - f.last_fed.getD now.sec) *
        (getHungerRate t (isFishActive t now.hour) / 60))) :
    (t.hungerThreshold ≤ nh → advanceFish catalog now f = FishOutcome.dead) ∧
    (nh < t.hungerThreshold → advanceFish catalog now f =
      (if 1/10 < |nh - f.hunger| then
        FishOutcome.kept { f with hunger := nh }
          (some (.updateFish f.id { hunger := some nh }))
      else FishOutcome.kept f none)) ∧
    (∀ a : Aquarium, (∀ g ∈ a.fish, (getFishType catalog g.type).isSome) →
      (updateFishStates catalog now a).1.num_fish =
        (a.fish.filter
          (fun g => advanceFish catalog now g != FishOutcome.dead)).length) ∧
    (∀ a : Aquarium, f ∈ a.fish →
      advanceFish catalog now f = FishOutcome.dead →
      DbOp.removeFish f.id ∈ (updateFishStates catalog now a).2) := by
  have hunf : advanceFish catalog now f =
      (if t.hungerThreshold ≤ nh then FishOutcome.dead
       else if 1/10 < |nh - f.hunger| then
        FishOutcome.kept { f with hunger := nh }
          (some (.updateFish f.id { hunger := some nh }))
       else FishOutcome.kept f none) := by
    simp only [advanceFish, ht, hnh]
    rcases f.last_fed with _ | s <;> rfl
  refine ⟨?_, ?_, ?_, ?_⟩
  · intro hge
    rw [hunf, if_pos hge]
  · intro hlt
    rw [hunf, if_neg (not_le.mpr hlt)]
  · intro a h
    rw [updateFishStates_num_fish]
    exact runCatchUp_kept_count catalog now a.fish h
  · intro a hmem hdead
    have hops := runCatchUp_removeFish_mem catalog now f hdead a.fish hmem
    unfold updateFishStates
    dsimp only
    split_ifs <;> simp [hops]

/-- Claim C2, witness for the amended statement on the spec scenario:
the hunger-59 Clownfish advanced 10 seconds reaches the 60 threshold and
dies, its row is removed, and the two-fish aquarium ends the call with
`num_fish` 1 — a decrement of exactly 1. -/
theorem catchUp_advance_dichotomy_witness :
    advanceFish defaultFishTypes exNow exDyingFish = FishOutcome.dead ∧
    (updateFishStates defaultFishTypes exNow exC2Aquarium).1.num_fish = 1 ∧
    DbOp.removeFish exDyingFish.id ∈
      (updateFishStates defaultFishTypes exNow exC2Aquarium).2 := by
  have h := catchUp_advance_dichotomy defaultFishTypes exNow exDyingFish
    clownfishType 60 (by with_unfolding_all decide)
    (by with_unfolding_all decide)
  have hdead := h.1 (le_refl 60)
  refine ⟨hdead, ?_,
    h.2.2.2 exC2Aquarium (by with_unfolding_all decide) hdead⟩
  rw [h.2.2.1 exC2Aquarium (by with_unfolding_all decide)]
  with_unfolding_all decide

/-- Claim C9: a fish whose stored `last_fed` does not parse is treated
as fed right now — zero elapsed time — so (as long as its stored hunger
is below its threshold, which every persisted fish satisfies) its hunger
is unchanged, no write is issued for it, it does not die in that
catch-up, and it appears unchanged in the returned fish list. -/
theorem invalid_last_fed_zero_elapsed (catalog : List FishType)
    (now : Instant) (f : Fish) (t : FishType)
    (ht : getFishType catalog f.type = some t)
    (hbad : f.last_fed = none)
    (hh : f.hunger < t.hungerThreshold) :
    advanceFish catalog now f = FishOutcome.kept f none ∧
    (∀ a : Aquarium, f ∈ a.fish →
      f ∈ (updateFishStates catalog now a).1.fish) := by
  have hadv : advanceFish catalog now f = FishOutcome.kept f none := by
    simp only [advanceFish, ht, hbad, sub_self, zero_mul, add_zero]
    rw [min_eq_right hh.le, if_neg (not_le.mpr hh),
      if_neg (by rw [sub_self, abs_zero]; norm_num)]
  refine ⟨hadv, fun a hmem => ?_⟩
  rw [updateFishStates_fish]
  exact runCatchUp_kept_mem catalog now f f none hadv a.fish hmem

/-- Claim C9, witness: the Betta with an unparsable `last_fed` and
hunger 5 survives catch-up with hunger 5 and stays in the tank. -/
theorem invalid_last_fed_zero_elapsed_witness :
    advanceFish defaultFishTypes exNow exLostClockFish =
      FishOutcome.kept exLostClockFish none ∧
    exLostClockFish ∈
      (updateFishStates defaultFishTypes exNow exC9Aquarium).1.fish := by
  have h := invalid_last_fed_zero_elapsed defaultFishTypes exNow
    exLostClockFish bettaType (by with_unfolding_all decide) rfl
    (by norm_num [exLostClockFish, bettaType])
  exact ⟨h.1, h.2 exC9Aquarium (by simp [exC9Aquarium])⟩

/-- Claim C5: a save (client push) for a PSID with no aquarium row fails
with an error, issues no database call at all — in particular it creates
no aquarium row — and leaves the random/id state untouched. Aquarium
creation happens only in the load path. -/
theorem save_without_aquarium_fails (catalog : List FishType)
    (now : Instant) (db : List Aquarium) (psid : String) (u : SaveUpdates)
    (sim : Sim) (h : db.find? (fun a => a.psid == psid) = none) :
    saveAquariumState catalog now db psid u sim =
      (Except.error "Aquarium not found for saving state.", [], sim) := by
  unfold saveAquariumState
  rw [h]

/-- Claim C5, witness: a push for the unseen PSID "ghost" against a
database holding only the "abc" aquarium fails without any operation. -/
theorem save_without_aquarium_fails_witness :
    saveAquariumState defaultFishTypes exNow [exAquarium] "ghost" {} exSim =
      (Except.error "Aquarium not found for saving state.", [], exSim) :=
  save_without_aquarium_fails defaultFishTypes exNow [exAquarium] "ghost"
    {} exSim (by with_unfolding_all decide)

/-- The catch-up loop on a list of fish that all starve keeps nothing,
and reports a death whenever the list is nonempty. -/
theorem runCatchUp_all_dead (catalog : List FishType) (now : Instant) :
    ∀ l : List Fish, (∀ f ∈ l, advanceFish catalog now f = FishOutcome.dead) →
      (runCatchUp catalog now l).kept = [] ∧
      (l = [] ∨ (runCatchUp catalog now l).died = true) := by
  intro l
  induction l with
  | nil => intro _; exact ⟨rfl, Or.inl rfl⟩
  | cons f rest ih =>
    intro h
    obtain ⟨hk, _⟩ := ih (fun g hg => h g (by simp [hg]))
    unfold runCatchUp
    rw [h f (by simp)]
    exact ⟨hk, Or.inr rfl⟩

/-- A write issued for a surviving fish is always a `db.updateFish`
call for that fish. -/
theorem advanceFish_writeOp (catalog : List FishType) (now : Instant)
    (f f1 : Fish) (o : DbOp)
    (h : advanceFish catalog now f = FishOutcome.kept f1 (some o)) :
    ∃ ch, o = DbOp.updateFish f.id ch := by
  unfold advanceFish at h
  rcases hty : getFishType catalog f.type with _ | t <;> rw [hty] at h
  · cases h
  · dsimp only at h
    split at h
    · cases h
    · split at h
      · obtain ⟨-, h2⟩ := FishOutcome.kept.inj h
        exact ⟨_, (Option.some.inj h2).symm⟩
      · exact absurd (FishOutcome.kept.inj h).2 (by simp)

/-- The catch-up loop never deletes an aquarium row. -/
theorem runCatchUp_no_removeAquarium (catalog : List FishType)
    (now : Instant) (p : String) :
    ∀ l : List Fish,
      DbOp.removeAquarium p ∉ (runCatchUp catalog now l).ops := by
  intro l
  induction l with
  | nil => simp [runCatchUp]
  | cons f rest ih =>
    unfold runCatchUp
    rcases hadv : advanceFish catalog now f with _ | _ | ⟨f1, op1⟩
    · exact ih
    · simpa using ih
    · rcases op1 with _ | o
      · exact ih
      · obtain ⟨ch, rfl⟩ := advanceFish_writeOp catalog now f f1 o hadv
        simpa using ih

/-- Claim C4: when every fish starves during one load-and-catch-up call,
that same call resets the aquarium row (tank life, feedings and fish
count to zero — the row is updated, never deleted) and then spawns
exactly one starter fish of the starter species (first common species,
else first available), so the call returns an aquarium with exactly one
fish and zeroed counters. -/
theorem allFishDead_resets_and_spawns_starter (catalog : List FishType)
    (now : Instant) (db : List Aquarium) (psid : String) (sim : Sim)
    (a : Aquarium) (st : FishType)
    (hfind : db.find? (fun x => x.psid == psid) = some a)
    (hne : a.fish ≠ [])
    (hdead : ∀ f ∈ a.fish, advanceFish catalog now f = FishOutcome.dead)
    (hst : starterFishType catalog = some st) :
    (getAndUpdateAquariumState catalog now db psid sim).1.tank_life_sec = 0 ∧
    (getAndUpdateAquariumState catalog now db psid sim).1.total_feedings = 0 ∧
    (getAndUpdateAquariumState catalog now db psid sim).1.num_fish = 1 ∧
    (getAndUpdateAquariumState catalog now db psid
      sim).1.fish.map (fun f => f.type) = [st.name] ∧
    DbOp.updateAquarium a.psid { tank_life_sec := some 0, num_fish := some 0, total_feedings := some 0 } ∈
      (getAndUpdateAquariumState catalog now db psid sim).2.1 ∧
    (∀ p, DbOp.removeAquarium p ∉
      (getAndUpdateAquariumState catalog now db psid sim).2.1) := by
  obtain ⟨hkept, hdied⟩ := runCatchUp_all_dead catalog now a.fish hdead
  have hdied2 : (runCatchUp catalog now a.fish).died = true := by
    rcases hdied with h | h
    · exact absurd h hne
    · exact h
  have hupd : updateFishStates catalog now a =
      ({ a with fish := [], num_fish := 0, tank_life_sec := 0, total_feedings := 0 },
       (runCatchUp catalog now a.fish).ops ++
         [.updateAquarium a.psid { tank_life_sec := some 0, num_fish := some 0, total_feedings := some 0 }]) := by
    unfold updateFishStates
    simp [hkept, hdied2]
  have hmain : getAndUpdateAquariumState catalog now db psid sim =
      ((spawnFish { a with fish := [], num_fish := 0, tank_life_sec := 0, total_feedings := 0 } st now sim).1,
       ((runCatchUp catalog now a.fish).ops ++
         [.updateAquarium a.psid { tank_life_sec := some 0, num_fish := some 0, total_feedings := some 0 }]) ++
         (spawnFish { a with fish := [], num_fish := 0, tank_life_sec := 0, total_feedings := 0 } st now sim).2.1,
       (spawnFish { a with fish := [], num_fish := 0, tank_life_sec := 0, total_feedings := 0 } st now sim).2.2) := by
    unfold getAndUpdateAquariumState
    rw [hfind]
    dsimp only
    rw [hupd]
    dsimp only [List.isEmpty]
    unfold spawnStarterFish
    rw [hst]
    rfl
  rw [hmain]
  unfold spawnFish
  dsimp only
  refine ⟨rfl, rfl, rfl, rfl, ?_, ?_⟩
  · exact List.mem_append_left _ (List.mem_append_right _ (by simp))
  · intro p
    simp only [List.mem_append]
    push_neg
    refine ⟨⟨runCatchUp_no_removeAquarium catalog now p a.fish, by simp⟩, by simp⟩

/-- The client-hunger step never sets a hunger the push did not carry:
its hunger field is exactly the pushed hunger value. -/
theorem clientHunger_positionChanges_hunger (u : FishUpdate) :
    (clientHunger u (positionChanges u {})).hunger = u.hunger := by
  rcases u with ⟨uid, ux, uy, uh, uf⟩
  rcases uh with _ | vh <;> rcases ux with _ | vx <;> rcases uy with _ | vy <;> rfl

/-- Shape of the `updateFishData` loop body on a `fed` update with a
known species: the tank is the old tank plus at most one spawned fish,
the fed fish receives a changes object whose hunger is
`max(0, (reported or stored) - 20)` and whose feeding counter is
incremented with reset at 5, and a fish is spawned exactly when the
counter reaches 5 and the two-stage draw returns a species. -/
theorem processFishUpdate_fed_shape (catalog : List FishType) (now : Instant)
    (a : Aquarium) (ops : List DbOp) (sim : Sim) (u : FishUpdate)
    (f : Fish) (t : FishType)
    (hf : a.fish.find? (fun g => g.id == u.id) = some f)
    (ht : getFishType catalog f.type = some t)
    (hfed : u.fed = true) :
    ∃ (ext : List Fish) (ch : Changes),
      (processFishUpdate catalog now (a, ops, sim) u).1.fish =
        updateFirst (fun g => g.id == u.id) (fun g => applyChanges g ch)
          (a.fish ++ ext) ∧
      ch.hunger = some (max 0 (jsOr u.hunger f.hunger - 20)) ∧
      ch.spawn_count =
        some (if 5 ≤ f.spawn_count + 1 then 0 else f.spawn_count + 1) ∧
      ext.length = (if 5 ≤ f.spawn_count + 1 ∧
          ((selectRandomFish catalog (a.tank_life_sec / 3600)
            sim.rng).1.isSome = true) then 1 else 0) := by
  have hju := clientHunger_positionChanges_hunger u
  unfold processFishUpdate
  dsimp only
  rw [hf]
  dsimp only
  rw [if_pos hfed, ht]
  dsimp only [getSpawnConditions]
  by_cases hsp : 5 ≤ f.spawn_count + 1
  · rw [if_pos hsp]
    rcases hsel : (selectRandomFish catalog (a.tank_life_sec / 3600) sim.rng).1 with _ | ft
    · refine ⟨[], { clientHunger u (positionChanges u {}) with hunger := some (max 0 (jsOr (clientHunger u (positionChanges u {})).hunger f.hunger - 20)), last_fed := some now.sec, spawn_count := some 0 }, ?_, ?_, ?_, ?_⟩
      · rw [List.append_nil]
        rfl
      · dsimp only
        rw [hju]
      · rw [if_pos hsp]
      · simp [hsp, hsel]
    · exact ⟨_, _, rfl, by dsimp only; rw [hju], by rw [if_pos hsp], by simp [hsp, hsel]⟩
  · rw [if_neg hsp]
    refine ⟨[], { clientHunger u (positionChanges u {}) with hunger := some (max 0 (jsOr (clientHunger u (positionChanges u {})).hunger f.hunger - 20)), last_fed := some now.sec, spawn_count := some (f.spawn_count + 1) }, ?_, ?_, ?_, ?_⟩
    · rw [List.append_nil]
      rfl
    · dsimp only
      rw [hju]
    · rw [if_neg hsp]
    · simp [hsp]

/-- A successful lookup in a list still succeeds, with the same result,
after rows are appended. -/
theorem find?_append_of_some {α : Type} (p : α → Bool) :
    ∀ (l l2 : List α) (g : α), l.find? p = some g →
      (l ++ l2).find? p = some g := by
  intro l
  induction l with
  | nil => intro l2 g h; exact absurd h (by simp)
  | cons x xs ih =>
    intro l2 g h
    cases hx : p x
    · rw [List.find?_cons_of_neg _ (by simp [hx])] at h
      rw [List.cons_append, List.find?_cons_of_neg _ (by simp [hx])]
      exact ih l2 g h
    · rw [List.find?_cons_of_pos _ hx] at h
      rw [List.cons_append, List.find?_cons_of_pos _ hx]
      exact h

/-- Mutating the first match of a search leaves the mutated element in
the list. -/
theorem mem_updateFirst_of_find? {α : Type} (p : α → Bool) (g : α → α) :
    ∀ (l : List α) (x : α), l.find? p = some x → g x ∈ updateFirst p g l := by
  intro l
  induction l with
  | nil => intro x h; exact absurd h (by simp)
  | cons y ys ih =>
    intro x h
    unfold updateFirst
    cases hy : p y
    · rw [List.find?_cons_of_neg _ (by simp [hy])] at h
      exact List.mem_cons_of_mem _ (ih x h)
    · rw [List.find?_cons_of_pos _ hy] at h
      cases h
      simp

/-- In-place mutation never changes the number of rows. -/
theorem updateFirst_length {α : Type} (p : α → Bool) (g : α → α) :
    ∀ l : List α, (updateFirst p g l).length = l.length := by
  intro l
  induction l with
  | nil => rfl
  | cons y ys ih =>
    unfold updateFirst
    cases hy : p y <;> simp [hy, ih]

/-- `Math.floor(random * n)` is a valid index whenever the draw is in
`[0, 1)` and the array is nonempty. -/
theorem jsIndex_lt (r : ℚ) (n : ℕ) (h0 : 0 ≤ r) (h1 : r < 1) (hn : 0 < n) :
    jsIndex r n < n := by
  unfold jsIndex
  have hnn : (0:ℚ) < n := by exact_mod_cast hn
  have hlt : r * n < n := by nlinarith
  have hfl : ⌊r * (n:ℚ)⌋ < (n:ℤ) := by
    apply Int.floor_lt.mpr
    push_cast
    exact hlt
  omega

/-- With a nonempty catalog and a random source in `[0, 1)`,
`selectRandomFish` always returns a species (the fallback draw over the
whole catalog covers rarities with no species). -/
theorem selectRandomFish_isSome (catalog : List FishType) (h : ℚ) (rng : Rng)
    (hc : catalog ≠ []) (hr : rng.Valid) :
    ((selectRandomFish catalog h rng).1).isSome = true := by
  have hlen : 0 < catalog.length := List.length_pos.mpr hc
  unfold selectRandomFish
  rw [if_neg (by simp only [getAllFishTypes]; omega)]
  dsimp only
  set sel := selectRarity (normalizedWeights h) (rng.next).1 with hs
  by_cases hfr : (getFishByRarity catalog sel).length = 0
  · rw [if_pos hfr]
    have hx := jsIndex_lt ((rng.next.2).next.1) (getAllFishTypes catalog).length
      (hr _).1 (hr _).2 (by simpa [getAllFishTypes] using hlen)
    simp [List.getElem?_eq_getElem hx]
  · rw [if_neg hfr]
    have hm : 0 < (getFishByRarity catalog sel).length := by omega
    have hx := jsIndex_lt ((rng.next.2).next.1) (getFishByRarity catalog sel).length
      (hr _).1 (hr _).2 hm
    simp [List.getElem?_eq_getElem hx]

/-- Claim C10: on a push, a `fed: true` update for a fish with a known
species sets the new hunger to `max(0, h - 20)`, where `h` is the
client-reported hunger if that value is nonzero, and the stored
server-side hunger when the client reports exactly 0 (JS `||` discards
the falsy 0) or reports nothing; the result is clamped at 0. -/
theorem fed_hunger_formula (catalog : List FishType) (now : Instant)
    (a : Aquarium) (u : FishUpdate) (f : Fish) (t : FishType) (sim : Sim)
    (hf : a.fish.find? (fun g => g.id == u.id) = some f)
    (ht : getFishType catalog f.type = some t)
    (hfed : u.fed = true) :
    ∃ f1, f1 ∈ (updateFishData catalog now a [u] sim).1.fish ∧
      f1.id = f.id ∧
      f1.hunger = max 0 (jsOr u.hunger f.hunger - 20) ∧
      0 ≤ f1.hunger := by
  have hfold : updateFishData catalog now a [u] sim =
      processFishUpdate catalog now (a, [], sim) u := rfl
  obtain ⟨ext, ch, hfish, hh, hs, hl⟩ :=
    processFishUpdate_fed_shape catalog now a [] sim u f t hf ht hfed
  have hhun : (applyChanges f ch).hunger = max 0 (jsOr u.hunger f.hunger - 20) := by
    simp [applyChanges, hh]
  refine ⟨applyChanges f ch, ?_, rfl, hhun, ?_⟩
  · rw [hfold, hfish]
    exact mem_updateFirst_of_find? _ _ _ f (find?_append_of_some _ a.fish ext f hf)
  · rw [hhun]
    exact le_max_left _ _

/-- Claim C10, witness: feeding the hunger-30 fish while the client
reports hunger exactly 0 discards the reported 0 and yields
`max(0, 30 - 20) = 10`. -/
theorem fed_hunger_formula_witness :
    ∃ f1, f1 ∈ (updateFishData defaultFishTypes exNow exAquarium
        [{ id := 1, hunger := some 0, fed := true }] exSim).1.fish ∧
      f1.id = 1 ∧ f1.hunger = 10 ∧ 0 ≤ f1.hunger := by
  obtain ⟨f1, h1, h2, h3, h4⟩ := fed_hunger_formula defaultFishTypes exNow
    exAquarium { id := 1, hunger := some 0, fed := true } exFish
    clownfishType exSim (by with_unfolding_all decide)
    (by with_unfolding_all decide) rfl
  exact ⟨f1, h1, h2, by rw [h3]; with_unfolding_all decide, h4⟩

/-- Claim C6: every feeding carried in a push increments the fed fish's
spawn-progress counter by exactly 1, regardless of its hunger level;
when the counter reaches the constant 5 the operation spawns exactly one
new fish (the tank grows by exactly one row) and resets the counter to
0, and below 5 it spawns nothing and stores the incremented counter. -/
theorem feeding_spawn_progress (catalog : List FishType) (now : Instant)
    (a : Aquarium) (u : FishUpdate) (f : Fish) (t : FishType) (sim : Sim)
    (hf : a.fish.find? (fun g => g.id == u.id) = some f)
    (ht : getFishType catalog f.type = some t)
    (hfed : u.fed = true)
    (hc : catalog ≠ [])
    (hr : sim.rng.Valid) :
    (∃ f1, f1 ∈ (updateFishData catalog now a [u] sim).1.fish ∧
      f1.id = f.id ∧
      f1.spawn_count =
        (if 5 ≤ f.spawn_count + 1 then 0 else f.spawn_count + 1)) ∧
    (5 ≤ f.spawn_count + 1 →
      (updateFishData catalog now a [u] sim).1.fish.length =
        a.fish.length + 1) ∧
    (f.spawn_count + 1 < 5 →
      (updateFishData catalog now a [u] sim).1.fish.length =
        a.fish.length) := by
  have hsome := selectRandomFish_isSome catalog (a.tank_life_sec / 3600)
    sim.rng hc hr
  have hfold : updateFishData catalog now a [u] sim =
      processFishUpdate catalog now (a, [], sim) u := rfl
  obtain ⟨ext, ch, hfish, hh, hs, hl⟩ :=
    processFishUpdate_fed_shape catalog now a [] sim u f t hf ht hfed
  refine ⟨⟨applyChanges f ch, ?_, rfl, ?_⟩, ?_, ?_⟩
  · rw [hfold, hfish]
    exact mem_updateFirst_of_find? _ _ _ f (find?_append_of_some _ a.fish ext f hf)
  · simp [applyChanges, hs]
  · intro hsp
    rw [hfold, hfish, updateFirst_length, List.length_append, hl,
      if_pos ⟨hsp, hsome⟩]
  · intro hlt
    rw [hfold, hfish, updateFirst_length, List.length_append, hl,
      if_neg (fun hab => absurd hab.1 (by omega))]
    omega

/-- Claim C6, witness: feeding the spawn-progress-4 fish once triggers
exactly one spawn (tank grows from 1 to 2 fish) and resets its counter
to 0, so the next feeding starts a fresh count toward 5. -/
theorem feeding_spawn_progress_witness :
    (∃ f1, f1 ∈ (updateFishData defaultFishTypes exNow exC6Aquarium
        [{ id := 41, fed := true }] exSim).1.fish ∧
      f1.id = 41 ∧ f1.spawn_count = 0) ∧
    (updateFishData defaultFishTypes exNow exC6Aquarium
      [{ id := 41, fed := true }] exSim).1.fish.length = 2 := by
  have h := feeding_spawn_progress defaultFishTypes exNow exC6Aquarium
    { id := 41, fed := true } exBreederFish clownfishType exSim
    (by with_unfolding_all decide) (by with_unfolding_all decide) rfl
    (by decide) (fun n => ⟨by norm_num [exSim, exRng], by norm_num [exSim, exRng]⟩)
  obtain ⟨⟨f1, h1, h2, h3⟩, h4, -⟩ := h
  refine ⟨⟨f1, h1, h2, ?_⟩, ?_⟩
  · rw [h3]
    decide
  · rw [h4 (by decide)]
    rfl

/-- Claim C4, witness: when the single fish of the "c4" aquarium starves
during one load, that same call returns a zeroed aquarium holding
exactly one starter Clownfish. -/
theorem allFishDead_resets_and_spawns_starter_witness :
    (getAndUpdateAquariumState defaultFishTypes exNow [exC4Aquarium] "c4"
      exSim).1.tank_life_sec = 0 ∧
    (getAndUpdateAquariumState defaultFishTypes exNow [exC4Aquarium] "c4"
      exSim).1.total_feedings = 0 ∧
    (getAndUpdateAquariumState defaultFishTypes exNow [exC4Aquarium] "c4"
      exSim).1.num_fish = 1 ∧
    (getAndUpdateAquariumState defaultFishTypes exNow [exC4Aquarium] "c4"
      exSim).1.fish.map (fun f => f.type) = ["Clownfish"] := by
  have h := allFishDead_resets_and_spawns_starter defaultFishTypes exNow
    [exC4Aquarium] "c4" exSim exC4Aquarium clownfishType
    (by with_unfolding_all decide) (by with_unfolding_all decide)
    (by
      intro f hf
      rw [show f = exDoomedFish by simpa [exC4Aquarium] using hf]
      with_unfolding_all decide)
    (by with_unfolding_all decide)
  exact ⟨h.1, h.2.1, h.2.2.1, h.2.2.2.1⟩

/-- Replacing the row matching a psid does not change the psid column. -/
theorem updateFirst_map_psid (e : SqliteDB.LeaderboardRow) :
    ∀ l : List SqliteDB.LeaderboardRow,
      ((AquariumLogic.updateFirst (fun r => r.psid == e.psid) (fun _ => e) l).map
        (fun r => r.psid)) = l.map (fun r => r.psid) := by
  intro l
  induction l with
  | nil => rfl
  | cons y ys ih =>
    unfold AquariumLogic.updateFirst
    cases hy : (y.psid == e.psid)
    · simp [ih]
    · simp [List.map_cons, (eq_of_beq hy).symm]

theorem upsert_psid_nodup (table : List SqliteDB.LeaderboardRow)
    (e : SqliteDB.LeaderboardRow)
    (h : (table.map (fun r => r.psid)).Nodup) :
    ((SqliteDB.upsert table e).map (fun r => r.psid)).Nodup := by
  unfold SqliteDB.upsert
  by_cases hex : table.any (fun r => r.psid == e.psid)
  · rw [if_pos hex, updateFirst_map_psid]
    exact h
  · rw [if_neg hex]
    rw [List.map_append, List.nodup_append]
    refine ⟨h, List.nodup_singleton _, fun x hx hmem => ?_⟩
    obtain ⟨r, hr, rfl⟩ := List.mem_map.mp hx
    simp only [List.map_cons, List.map_nil, List.mem_singleton] at hmem
    exact hex (List.any_eq_true.mpr ⟨r, hr, by simp [hmem]⟩)

theorem nodup_filter_keep_le {α β : Type} [DecidableEq β] (key : α → β)
    (table : List α) (keep : List β) (p : α → Bool)
    (hnd : (table.map key).Nodup)
    (hp : ∀ r ∈ table, p r = true → key r ∈ keep) :
    (table.filter p).length ≤ keep.length := by
  have h1 : ((table.filter p).map key).Nodup :=
    List.Nodup.sublist (List.Sublist.map key (List.filter_sublist table)) hnd
  have h2 : ∀ x ∈ (table.filter p).map key, x ∈ keep := by
    intro x hx
    obtain ⟨r, hr, rfl⟩ := List.mem_map.mp hx
    exact hp r (List.mem_filter.mp hr).1 (List.mem_filter.mp hr).2
  calc (table.filter p).length
      = ((table.filter p).map key).length := (List.length_map _ _).symm
    _ = ((table.filter p).map key).toFinset.card :=
        (List.toFinset_card_of_nodup h1).symm
    _ ≤ keep.toFinset.card := Finset.card_le_card
        (fun x hx => List.mem_toFinset.mpr (h2 x (List.mem_toFinset.mp hx)))
    _ ≤ keep.length := List.toFinset_card_le _

theorem session_updateLeaderboard_bound (table : List SqliteDB.LeaderboardRow)
    (e : SqliteDB.LeaderboardRow)
    (hnd : (table.map (fun r => r.psid)).Nodup) :
    (SqliteDB.updateLeaderboard table e).length ≤ 10 := by
  unfold SqliteDB.updateLeaderboard
  dsimp only
  have hnd1 := upsert_psid_nodup table e hnd
  have hb := nodup_filter_keep_le (fun r => r.psid) (SqliteDB.upsert table e)
    (((SqliteDB.sortByTankLifeDesc (SqliteDB.upsert table e)).take 10).map
      (fun r => r.psid))
    (fun r => ((((SqliteDB.sortByTankLifeDesc (SqliteDB.upsert table e)).take
      10).map (fun r => r.psid)).contains r.psid))
    hnd1 (fun r _ hr => by simpa using hr)
  refine le_trans hb ?_
  rw [List.length_map]
  exact List.length_take_le 10 _

theorem fishInsert_nodup (table : List SqliteDBFishKeyed.LeaderboardRow)
    (f : Fish) (psid : String)
    (hnd : (table.map (fun r => r.fish_id)).Nodup) :
    (((if table.any (fun r => r.fish_id == f.id) then table else table ++ [({ fish_id := f.id, aquarium_id := f.aquarium_id, psid := psid, fish_type := f.type, created_at := f.created_at } : SqliteDBFishKeyed.LeaderboardRow)]) : List SqliteDBFishKeyed.LeaderboardRow).map (fun r => r.fish_id)).Nodup := by
  by_cases hex : table.any (fun r => r.fish_id == f.id)
  · rw [if_pos hex]
    exact hnd
  · rw [if_neg hex]
    rw [List.map_append, List.nodup_append]
    refine ⟨hnd, List.nodup_singleton _, fun x hx hmem => ?_⟩
    obtain ⟨r, hr, rfl⟩ := List.mem_map.mp hx
    simp only [List.map_cons, List.map_nil, List.mem_singleton] at hmem
    exact hex (List.any_eq_true.mpr ⟨r, hr, by simp [hmem]⟩)

theorem fish_updateLeaderboard_bound
    (table : List SqliteDBFishKeyed.LeaderboardRow) (f : Fish) (psid : String)
    (hnd : (table.map (fun r => r.fish_id)).Nodup)
    (hv : SqliteDBFishKeyed.invalidFishData f = false) :
    (SqliteDBFishKeyed.updateLeaderboard table f psid).length ≤ 10 := by
  unfold SqliteDBFishKeyed.updateLeaderboard
  rw [if_neg (by simp [hv])]
  dsimp only
  have hnd1 := fishInsert_nodup table f psid hnd
  have hb := nodup_filter_keep_le (fun r => r.fish_id)
    ((if table.any (fun r => r.fish_id == f.id) then table else table ++ [({ fish_id := f.id, aquarium_id := f.aquarium_id, psid := psid, fish_type := f.type, created_at := f.created_at } : SqliteDBFishKeyed.LeaderboardRow)]) : List SqliteDBFishKeyed.LeaderboardRow)
    (((SqliteDBFishKeyed.sortByCreatedAsc ((if table.any (fun r => r.fish_id == f.id) then table else table ++ [({ fish_id := f.id, aquarium_id := f.aquarium_id, psid := psid, fish_type := f.type, created_at := f.created_at } : SqliteDBFishKeyed.LeaderboardRow)]))).take 10).map (fun r => r.fish_id))
    (fun r => ((((SqliteDBFishKeyed.sortByCreatedAsc ((if table.any (fun r => r.fish_id == f.id) then table else table ++ [({ fish_id := f.id, aquarium_id := f.aquarium_id, psid := psid, fish_type := f.type, created_at := f.created_at } : SqliteDBFishKeyed.LeaderboardRow)]))).take 10).map (fun r => r.fish_id)).contains r.fish_id))
    hnd1 (fun r _ hr => by simpa using hr)
  refine le_trans hb ?_
  rw [List.length_map]
  exact List.length_take_le 10 _

theorem fish_updateLeaderboard_invalid
    (table : List SqliteDBFishKeyed.LeaderboardRow) (f : Fish) (psid : String)
    (hv : SqliteDBFishKeyed.invalidFishData f = true) :
    SqliteDBFishKeyed.updateLeaderboard table f psid = table := by
  unfold SqliteDBFishKeyed.updateLeaderboard
  rw [if_pos hv]


/-- Claim C7: after any completed `updateLeaderboard` write the
leaderboard holds at most 10 rows (given the primary-key invariant that
keys are distinct; a fish-keyed write rejected for invalid data leaves
the table untouched); and after 15 sequential writes with distinct keys
and increasing ranking values, `getLeaderboard` returns exactly the 10
best-ranked rows in ranking order — tank life descending (rows 15 down
to 6) for the session scheme, creation time ascending (rows 1 up to 10)
for the fish scheme. -/
theorem leaderboard_bounded_and_sorted :
    (∀ (table : List SqliteDB.LeaderboardRow) (e : SqliteDB.LeaderboardRow),
      (table.map (fun r => r.psid)).Nodup →
      (SqliteDB.updateLeaderboard table e).length ≤ 10) ∧
    SqliteDB.getLeaderboard sessionRun =
      (List.range 10).map (fun i => sessionEntry (15 - i)) ∧
    (∀ (table : List SqliteDBFishKeyed.LeaderboardRow) (f : Fish)
      (psid : String), (table.map (fun r => r.fish_id)).Nodup →
      SqliteDBFishKeyed.invalidFishData f = false →
      (SqliteDBFishKeyed.updateLeaderboard table f psid).length ≤ 10) ∧
    (∀ (table : List SqliteDBFishKeyed.LeaderboardRow) (f : Fish)
      (psid : String), SqliteDBFishKeyed.invalidFishData f = true →
      SqliteDBFishKeyed.updateLeaderboard table f psid = table) ∧
    SqliteDBFishKeyed.getLeaderboard fishRun =
      (List.range 10).map (fun i => ({ fish_id := i + 1, aquarium_id := 1, psid := "q", fish_type := "Clownfish", created_at := ((i + 1 : ℕ):ℚ) } : SqliteDBFishKeyed.LeaderboardRow)) := by
  exact ⟨session_updateLeaderboard_bound, by with_unfolding_all decide,
    fish_updateLeaderboard_bound, fish_updateLeaderboard_invalid,
    by with_unfolding_all decide⟩

/-- Claim C7, witness: concrete writes against an empty table stay
within the 10-row bound, and a write with falsy fish data (id 0) leaves
the table unchanged. -/
theorem leaderboard_bounded_and_sorted_witness :
    (SqliteDB.updateLeaderboard [] (sessionEntry 1)).length ≤ 10 ∧
    (SqliteDBFishKeyed.updateLeaderboard [] (fishRowEx 1) "q").length ≤ 10 ∧
    SqliteDBFishKeyed.updateLeaderboard [] ({ fishRowEx 1 with id := 0 }) "q" = [] := by
  refine ⟨leaderboard_bounded_and_sorted.1 [] (sessionEntry 1) (by simp),
    leaderboard_bounded_and_sorted.2.2.1 [] (fishRowEx 1) "q" (by simp)
      (by with_unfolding_all decide),
    leaderboard_bounded_and_sorted.2.2.2.1 [] ({ fishRowEx 1 with id := 0 })
      "q" (by with_unfolding_all decide)⟩

end Aquae
